import Mathlib

/-!
Verification of the Nate\x27s Door Service Express server (`src/server.js`).

The server has two parts:
* a static-content router (`app.get` routes plus `express.static` and the
  `app.get('*')` wildcard), modelled by `dispatch`;
* the `POST /api/contact` handler (validation, sanitisation, lazy Resend
  client construction, email building and error mapping), modelled by
  `handleContact` and its auxiliaries.

JavaScript strings are modelled as Lean `String`; absent or `undefined`
JSON fields as `Option String`; JS truthiness of a string value as
`jsTruthy`.  Machinery is kept executable so that concrete requests can be
evaluated by `decide`.
-/

set_option maxRecDepth 100000

namespace NatesDoor

/-- JS truthiness of a possibly-absent string value: `undefined`/missing and
the empty string are falsy, every other string is truthy. -/
def jsTruthy : Option String → Bool
  | none => false
  | some s => !(s == "")

/-- JS coercion `String(v ?? '')` for a possibly-absent string value. -/
def strOf : Option String → String
  | none => ""
  | some s => s

/-- Replace every occurrence of the character `c` in a character list by the
replacement list `r` — the semantics of JS `str.replace(/c/g, r)` at the
character level. -/
def replCL (c : Char) (r : List Char) : List Char → List Char
  | [] => []
  | a :: as => if a = c then r ++ replCL c r as else a :: replCL c r as

/-- JS `s.replace(/c/g, r)` on strings, for a single-character pattern. -/
def jsReplaceAll (c : Char) (r : String) (s : String) : String :=
  ⟨replCL c r.data s.data⟩

/-- The handler's sanitiser
`const safe = str => String(str ?? '').replace(/</g, '&lt;').replace(/>/g, '&gt;')`,
applied to an actual string (the `String(str ?? '')` coercion is the identity
there; the handler only ever applies it to present string fields). -/
def safe (str : String) : String :=
  jsReplaceAll '>' "&gt;" (jsReplaceAll '<' "&lt;" str)

/-- Is `pat` a prefix of `s` (character lists)? -/
def isPrefixCL : List Char → List Char → Bool
  | [], _ => true
  | _ :: _, [] => false
  | a :: as, b :: bs => a = b && isPrefixCL as bs

/-- Does `s` contain `pat` as a contiguous substring (character lists)? -/
def containsCL (pat : List Char) : List Char → Bool
  | [] => isPrefixCL pat []
  | b :: bs => isPrefixCL pat (b :: bs) || containsCL pat bs

/-- Does the string `s` contain `pat` as a contiguous substring? -/
def strContains (s pat : String) : Bool :=
  containsCL pat.data s.data

/-! ### Lemmas about `replCL` and `safe` -/

theorem replCL_not_mem (c : Char) (r : List Char) (hc : c ∉ r) :
    ∀ l : List Char, c ∉ replCL c r l := by
  intro l
  induction l with
  | nil => simp [replCL]
  | cons a as ih =>
    by_cases hac : a = c
    · simp only [replCL, if_pos hac, List.mem_append]
      rintro (h | h)
      · exact hc h
      · exact ih h
    · simp only [replCL, if_neg hac, List.mem_cons]
      rintro (h | h)
      · exact hac h.symm
      · exact ih h

theorem replCL_keeps_not_mem (c d : Char) (r : List Char) (hd : d ∉ r) :
    ∀ l : List Char, d ∉ l → d ∉ replCL c r l := by
  intro l
  induction l with
  | nil => intro _; simp [replCL]
  | cons a as ih =>
    intro hl
    have hda : d ≠ a := fun h => hl (by simp [h])
    have has : d ∉ as := fun h => hl (List.mem_cons_of_mem _ h)
    by_cases hac : a = c
    · simp only [replCL, if_pos hac, List.mem_append]
      rintro (h | h)
      · exact hd h
      · exact ih has h
    · simp only [replCL, if_neg hac, List.mem_cons]
      rintro (h | h)
      · exact hda h
      · exact ih has h

theorem replCL_id (c : Char) (r : List Char) :
    ∀ l : List Char, c ∉ l → replCL c r l = l := by
  intro l
  induction l with
  | nil => intro _; rfl
  | cons a as ih =>
    intro hl
    have hac : a ≠ c := fun h => hl (by simp [h])
    have has : c ∉ as := fun h => hl (List.mem_cons_of_mem _ h)
    simp [replCL, if_neg hac, ih has]

theorem safe_no_lt (s : String) : '<' ∉ (safe s).data := by
  have h1 : '<' ∉ replCL '<' "&lt;".data s.data :=
    replCL_not_mem '<' "&lt;".data (by decide) s.data
  exact replCL_keeps_not_mem '>' '<' "&gt;".data (by decide) _ h1

theorem safe_no_gt (s : String) : '>' ∉ (safe s).data :=
  replCL_not_mem '>' "&gt;".data (by decide) _

theorem safe_id_of_clean (s : String) (h1 : '<' ∉ s.data) (h2 : '>' ∉ s.data) :
    safe s = s := by
  cases s with
  | mk l =>
    show (⟨replCL '>' "&gt;".data (replCL '<' "&lt;".data l)⟩ : String) = ⟨l⟩
    rw [replCL_id '<' "&lt;".data l h1, replCL_id '>' "&gt;".data l h2]

example : safe "<script>" = "&lt;script&gt;" := by decide
example : jsTruthy (some "") = false := by decide
example : strContains "hello world" "lo wo" = true := by decide
example : strContains "hello world" "xyz" = false := by decide

/-! ### Static content router

A request is an HTTP method together with its path split into segments
(`"/blog/x"` is `["blog", "x"]`).  `express.static` and file existence on
disk are abstracted by a predicate `fs` on segment paths.  Routes are tried
in registration order: `express.static`, `POST /api/contact`,
`GET /garage-door-service-areas-kansas-city`, `GET /blog`,
`GET /blog/:slug`, `GET /services/:slug`, `GET *`; a request matching no
route falls through to Express\x27 default 404 handler. -/

/-- HTTP methods relevant to the routing table. -/
inductive Method where
  | get
  | head
  | post
  | put
  | delete
deriving DecidableEq

/-- An incoming request: method and path segments. -/
structure Request where
  method : Method
  segments : List String
deriving DecidableEq

/-- `app.get` routes (and `express.static`) match GET and HEAD requests. -/
def isGetLike : Method → Bool
  | .get => true
  | .head => true
  | _ => false

/-- File served for `/blog/:slug` (line 106: `blog/<slug>/index.html`). -/
def blogFile (slug : String) : List String := ["blog", slug, "index.html"]

/-- File served for `/services/:slug` (line 114). -/
def servicesFile (slug : String) : List String := ["services", slug, "index.html"]

/-- The site root index file. -/
def rootIndex : List String := ["index.html"]

/-- The blog index file. -/
def blogIndex : List String := ["blog", "index.html"]

/-- The service-areas page file (line 97). -/
def areasFile : List String := ["garage-door-service-areas-kansas-city", "index.html"]

/-- A routed response: HTTP status and the file streamed (`none` for
Express\x27 bodyless default 404 page). -/
structure StaticResponse where
  status : Nat
  file : Option (List String)
deriving DecidableEq

/-- Outcome of routing: either a static response or dispatch into the
`POST /api/contact` handler. -/
inductive Dispatch where
  | response (r : StaticResponse)
  | contactRoute
deriving DecidableEq

/-- Match a two-segment path `[h, slug]` with fixed head `h`, as the Express
patterns `/blog/:slug` and `/services/:slug` do. -/
def slugUnder (h : String) : List String → Option String
  | [a, slug] => if a = h then some slug else none
  | _ => none

/-- The server\x27s routing table, in registration order (src/server.js
lines 38, 43, 96-123).  `fs p = true` means a file exists at segment path
`p` and is servable by `express.static`. -/
def dispatch (fs : List String → Bool) (req : Request) : Dispatch :=
  if isGetLike req.method && fs req.segments then
    .response { status := 200, file := some req.segments }
  else if req.method = Method.post ∧ req.segments = ["api", "contact"] then
    .contactRoute
  else if isGetLike req.method then
    if req.segments = ["garage-door-service-areas-kansas-city"] then
      .response { status := 200, file := some areasFile }
    else if req.segments = ["blog"] then
      .response { status := 200, file := some blogIndex }
    else
      match slugUnder "blog" req.segments with
      | some slug =>
        if fs (blogFile slug) then
          .response { status := 200, file := some (blogFile slug) }
        else
          .response { status := 404, file := some blogIndex }
      | none =>
        match slugUnder "services" req.segments with
        | some slug =>
          if fs (servicesFile slug) then
            .response { status := 200, file := some (servicesFile slug) }
          else
            .response { status := 404, file := some rootIndex }
        | none =>
          .response { status := 200, file := some rootIndex }
  else
    .response { status := 404, file := none }

/-- An on-disk state with no files at all. -/
def noFiles : List String → Bool := fun _ => false

example :
    dispatch noFiles ⟨Method.get, ["blog", "does-not-exist"]⟩ =
      .response { status := 404, file := some blogIndex } := by decide
example :
    dispatch noFiles ⟨Method.delete, ["foo"]⟩ =
      .response { status := 404, file := none } := by decide
example :
    dispatch noFiles ⟨Method.get, ["anything-unmatched"]⟩ =
      .response { status := 200, file := some rootIndex } := by decide
example :
    dispatch noFiles ⟨Method.get, ["services", "does-not-exist"]⟩ =
      .response { status := 404, file := some rootIndex } := by decide

/-! ### Contact submission handler (`POST /api/contact`) -/

/-- The environment variables the handler reads (`none` = unset). -/
structure Env where
  resendApiKey : Option String
  fromEmail : Option String
  toEmail : Option String
deriving DecidableEq

/-- The Resend client handle (`new Resend(key)`). -/
structure Client where
  apiKey : String
deriving DecidableEq

/-- The module-level `let resend;` — at process start no client exists. -/
def initialResendState : Option Client := none

/-- `getResend()` (lines 24-32): return the cached client, or construct it
from `RESEND_API_KEY`; throw when the key is unset or empty.  Returns the
client together with the updated cache. -/
def getResend (env : Env) (resend : Option Client) :
    Except String (Client × Option Client) :=
  match resend with
  | some c => .ok (c, some c)
  | none =>
    if jsTruthy env.resendApiKey then
      let c : Client := ⟨strOf env.resendApiKey⟩
      .ok (c, some c)
    else
      .error "RESEND_API_KEY is not set. Add it to your .env file."

/-- Default sender used when `FROM_EMAIL` is unset (line 61). -/
def defaultFrom : String := "Nate\x27s Door Service <onboarding@resend.dev>"

/-- Default recipient used when `TO_EMAIL` is unset (line 62). -/
def defaultTo : String := "contact@natesdoorservice.com"

/-- The interpolated Email table cell (line 76):
`email ? `<a href="mailto:${safe(email)}">${safe(email)}</a>` : '—'`. -/
def emailCell (email : Option String) : String :=
  if jsTruthy email then
    "<a href=\"mailto:" ++ safe (strOf email) ++ "\">" ++ safe (strOf email) ++ "</a>"
  else
    "—"

/-- The HTML body template (lines 65-84), with the four interpolations. -/
def contactHtml (name phone : String) (email : Option String) (message : String) : String :=
  "\n        <div style=\"font-family: Arial, sans-serif; max-width: 560px; margin: 0 auto;\">\n          <h2 style=\"color: #1e3a8a; border-bottom: 2px solid #dbeafe; padding-bottom: 8px;\">\n            New Quote Request — Nate\x27s Door Service\n          </h2>\n          <table style=\"width:100%; border-collapse:collapse; margin-top:16px;\">\n            <tr><td style=\"padding:8px 0; font-weight:bold; color:#374151; width:30%;\">Name</td>\n                <td style=\"padding:8px 0; color:#111827;\">"
    ++ safe name ++
    "</td></tr>\n            <tr><td style=\"padding:8px 0; font-weight:bold; color:#374151;\">Phone</td>\n                <td style=\"padding:8px 0; color:#111827;\"><a href=\"tel:"
    ++ safe phone ++
    "\">"
    ++ safe phone ++
    "</a></td></tr>\n            <tr><td style=\"padding:8px 0; font-weight:bold; color:#374151;\">Email</td>\n                <td style=\"padding:8px 0; color:#111827;\">"
    ++ emailCell email ++
    "</td></tr>\n            <tr><td style=\"padding:8px 0; font-weight:bold; color:#374151; vertical-align:top;\">Message</td>\n                <td style=\"padding:8px 0; color:#111827; white-space:pre-wrap;\">"
    ++ safe message ++
    "</td></tr>\n          </table>\n          <p style=\"margin-top:24px; font-size:12px; color:#9ca3af;\">\n            Sent from natesdoorservice.com contact form\n          </p>\n        </div>\n      "

/-- The email handed to `resend.emails.send` (lines 55-85). -/
structure OutboundEmail where
  fromAddr : String
  toAddr : List String
  replyTo : Option String
  subject : String
  html : String
deriving DecidableEq

/-- Build the outbound email from the (validated) submission fields. -/
def buildEmail (env : Env) (name phone : String) (email : Option String)
    (message : String) : OutboundEmail :=
  { fromAddr := match env.fromEmail with
      | some f => f
      | none => defaultFrom
    toAddr := [match env.toEmail with
      | some t => t
      | none => defaultTo]
    replyTo := if jsTruthy email then email else none
    subject := "New Quote Request from " ++ safe name
    html := contactHtml name phone email message }

/-- The parsed JSON request body: each field may be absent. -/
structure ContactBody where
  name : Option String
  phone : Option String
  email : Option String
  message : Option String
deriving DecidableEq

/-- The JSON response body sent back to the client. -/
inductive ResBody where
  | success
  | jsonError (msg : String)
deriving DecidableEq

/-- What one `POST /api/contact` request produced: HTTP status, response
body, the email handed to the collaborator (if any), the logged error
message (if any), and the Resend-client cache after the request. -/
structure ContactOutcome where
  status : Nat
  body : ResBody
  sent : Option OutboundEmail
  logged : Option String
  resendAfter : Option Client
deriving DecidableEq

/-- The collaborator acknowledges the send, or rejects with an error. -/
inductive SendResult where
  | ok
  | fail (msg : String)
deriving DecidableEq

/-- The `POST /api/contact` handler (lines 43-93): validate, sanitise,
lazily obtain the Resend client, send, and map the outcome to a response.
`send` is the behaviour of the external collaborator call. -/
def handleContact (env : Env) (resend : Option Client) (b : ContactBody)
    (send : SendResult) : ContactOutcome :=
  if !(jsTruthy b.name && jsTruthy b.phone && jsTruthy b.message) then
    { status := 400, body := .jsonError "Please fill in all required fields.",
      sent := none, logged := none, resendAfter := resend }
  else
    match getResend env resend with
    | .error msg =>
      { status := 500, body := .jsonError "Failed to send email. Please try again.",
        sent := none, logged := some ("Resend error: " ++ msg),
        resendAfter := resend }
    | .ok (_, resendAfter) =>
      let mail := buildEmail env (strOf b.name) (strOf b.phone) b.email (strOf b.message)
      match send with
      | .ok =>
        { status := 200, body := .success, sent := some mail,
          logged := none, resendAfter := resendAfter }
      | .fail msg =>
        { status := 500, body := .jsonError "Failed to send email. Please try again.",
          sent := some mail, logged := some ("Resend error: " ++ msg),
          resendAfter := resendAfter }

/-- An environment with only the API key configured. -/
def envKeyOnly : Env := ⟨some "re_test_key", none, none⟩

/-- An environment with nothing configured. -/
def envEmpty : Env := ⟨none, none, none⟩

/-- The well-formed example submission from the spec. -/
def janeBody : ContactBody :=
  ⟨some "Jane Doe", some "555-1234", some "jane@example.com", some "Need a spring fixed"⟩

example :
    (handleContact envKeyOnly initialResendState janeBody .ok).status = 200 := by decide
example :
    Option.map OutboundEmail.subject (handleContact envKeyOnly initialResendState janeBody .ok).sent
      = some "New Quote Request from Jane Doe" := by decide
example :
    Option.map (fun m => strContains m.html "555-1234")
        (handleContact envKeyOnly initialResendState janeBody .ok).sent = some true := by decide
example :
    Option.map (fun m => strContains m.html "mailto:jane@example.com")
        (handleContact envKeyOnly initialResendState janeBody .ok).sent = some true := by decide

/-- The submission whose name is a script tag, from the spec example. -/
def scriptBody : ContactBody :=
  ⟨some "<script>alert(1)</script>", some "555-1234", none, some "Hello"⟩

/-- The submission whose email field is present but the empty string. -/
def emptyEmailBody : ContactBody :=
  ⟨some "Jane Doe", some "555-1234", some "", some "Need a spring fixed"⟩

/-- If a two-segment match fails for every slug, `slugUnder` returns none. -/
theorem slugUnder_eq_none (h : String) (l : List String)
    (hn : ∀ s, l ≠ [h, s]) : slugUnder h l = none := by
  match l with
  | [] => rfl
  | [_] => rfl
  | a :: b :: c :: rest => rfl
  | [a, b] =>
    by_cases hah : a = h
    · exact absurd (by rw [hah]) (hn b)
    · simp [slugUnder, hah]

/-! ### Claims -/

/-- C1 (counterexample): for `GET /blog/does-not-exist` with no file on
disk, the code serves the blog index content but with HTTP status 404,
not a success status as the claim states. -/
theorem C1_counterexample :
    dispatch noFiles ⟨Method.get, ["blog", "does-not-exist"]⟩ =
      .response { status := 404, file := some blogIndex } ∧
    dispatch noFiles ⟨Method.get, ["blog", "does-not-exist"]⟩ ≠
      .response { status := 200, file := some blogIndex } := by
  decide

/-- C1 (amended): for every GET request to `/blog/{slug}` where the file
`blog/{slug}/index.html` does not exist (and the request path itself is not
a servable static asset), the response carries the blog index file content
with HTTP status 404 — the content fallback happens, but with a 404 status,
not a success status. -/
theorem C1_blog_fallback (fs : List String → Bool) (slug : String)
    (hstatic : fs ["blog", slug] = false)
    (hfile : fs (blogFile slug) = false) :
    dispatch fs ⟨Method.get, ["blog", slug]⟩ =
      .response { status := 404, file := some blogIndex } := by
  simp [dispatch, isGetLike, hstatic, hfile, slugUnder]

/-- C1 (witness): the amended statement at `GET /blog/does-not-exist` with
an empty disk. -/
theorem C1_blog_fallback_witness :
    dispatch noFiles ⟨Method.get, ["blog", "does-not-exist"]⟩ =
      .response { status := 404, file := some blogIndex } :=
  C1_blog_fallback noFiles "does-not-exist" rfl rfl

/-- C2 (counterexample): a `DELETE /foo` request matches no route — the
wildcard is registered with `app.get`, so it does not match non-GET
methods — and Express answers its default 404, not the root index with
status 200 as the claim states. -/
theorem C2_counterexample :
    dispatch noFiles ⟨Method.delete, ["foo"]⟩ =
      .response { status := 404, file := none } ∧
    dispatch noFiles ⟨Method.delete, ["foo"]⟩ ≠
      .response { status := 200, file := some rootIndex } := by
  decide

/-- C2 (amended): for every GET (or HEAD) request whose path matches no
other route and no static asset, the server responds with the site root
index file and status 200; requests with other methods that match no route
receive the Express default 404 instead. -/
theorem C2_wildcard (fs : List String → Bool) (segs : List String)
    (hstatic : fs segs = false)
    (hareas : segs ≠ ["garage-door-service-areas-kansas-city"])
    (hblog : segs ≠ ["blog"])
    (hblogslug : ∀ s, segs ≠ ["blog", s])
    (hservslug : ∀ s, segs ≠ ["services", s]) :
    dispatch fs ⟨Method.get, segs⟩ =
      .response { status := 200, file := some rootIndex } := by
  have hb := slugUnder_eq_none "blog" segs hblogslug
  have hs := slugUnder_eq_none "services" segs hservslug
  simp [dispatch, isGetLike, hstatic, hareas, hblog, hb, hs]

/-- C2 (witness): the amended statement at `GET /anything-unmatched` with
an empty disk. -/
theorem C2_wildcard_witness :
    dispatch noFiles ⟨Method.get, ["anything-unmatched"]⟩ =
      .response { status := 200, file := some rootIndex } :=
  C2_wildcard noFiles ["anything-unmatched"] rfl (by simp) (by simp)
    (fun s => by simp) (fun s => by simp)

/-- C3: whenever `name`, `phone` or `message` is missing or empty, the
handler answers 400 with the fixed validation error, hands nothing to the
email collaborator, logs nothing and leaves the client cache untouched. -/
theorem C3_validation (env : Env) (resend : Option Client) (b : ContactBody)
    (send : SendResult)
    (h : jsTruthy b.name = false ∨ jsTruthy b.phone = false ∨
      jsTruthy b.message = false) :
    handleContact env resend b send =
      { status := 400, body := .jsonError "Please fill in all required fields.",
        sent := none, logged := none, resendAfter := resend } := by
  have hcond : (jsTruthy b.name && jsTruthy b.phone && jsTruthy b.message) = false := by
    rcases h with h | h | h <;> simp [h]
  simp [handleContact, hcond]

/-- C3 (witness): a submission with an empty name is rejected with 400 and
the collaborator is not invoked. -/
theorem C3_validation_witness :
    handleContact envKeyOnly initialResendState
        ⟨some "", some "555-1234", none, some "Need a spring fixed"⟩ .ok =
      { status := 400, body := .jsonError "Please fill in all required fields.",
        sent := none, logged := none, resendAfter := initialResendState } :=
  C3_validation envKeyOnly initialResendState
    ⟨some "", some "555-1234", none, some "Need a spring fixed"⟩ .ok
    (Or.inl (by decide))

/-- C4: the sanitiser output never contains a raw `<` or `>` (every
interpolated field has had them replaced by `&lt;`/`&gt;`), and for the
submission whose name is `<script>alert(1)</script>` the generated email
body contains `&lt;script&gt;alert(1)&lt;/script&gt;` and never the raw
tag. -/
theorem C4_sanitised :
    (∀ s : String, '<' ∉ (safe s).data ∧ '>' ∉ (safe s).data) ∧
    Option.map (fun m => strContains m.html "&lt;script&gt;alert(1)&lt;/script&gt;")
        (handleContact envKeyOnly initialResendState scriptBody .ok).sent = some true ∧
    Option.map (fun m => strContains m.html "<script>alert(1)</script>")
        (handleContact envKeyOnly initialResendState scriptBody .ok).sent = some false :=
  ⟨fun s => ⟨safe_no_lt s, safe_no_gt s⟩, by decide, by decide⟩

/-- C5: for the well-formed Jane Doe submission with the collaborator
acknowledging, the handler answers 200 `{success: true}` and the email
handed over has the expected subject and a body containing the phone, a
mailto link and the message. -/
theorem C5_wellformed :
    (handleContact envKeyOnly initialResendState janeBody .ok).status = 200 ∧
    (handleContact envKeyOnly initialResendState janeBody .ok).body = .success ∧
    Option.map OutboundEmail.subject
        (handleContact envKeyOnly initialResendState janeBody .ok).sent =
      some "New Quote Request from Jane Doe" ∧
    Option.map (fun m => strContains m.html "555-1234")
        (handleContact envKeyOnly initialResendState janeBody .ok).sent = some true ∧
    Option.map (fun m => strContains m.html "mailto:jane@example.com")
        (handleContact envKeyOnly initialResendState janeBody .ok).sent = some true ∧
    Option.map (fun m => strContains m.html "Need a spring fixed")
        (handleContact envKeyOnly initialResendState janeBody .ok).sent = some true := by
  refine ⟨by decide, by decide, by decide, by decide, by decide, by decide⟩

/-- C6: for every valid submission where the collaborator call fails, the
handler answers 500 with the fixed failure message and logs the error — it
never propagates to the client. -/
theorem C6_send_failure (env : Env) (resend : Option Client) (b : ContactBody)
    (msg : String)
    (h1 : jsTruthy b.name = true) (h2 : jsTruthy b.phone = true)
    (h3 : jsTruthy b.message = true) :
    (handleContact env resend b (.fail msg)).status = 500 ∧
    (handleContact env resend b (.fail msg)).body =
      .jsonError "Failed to send email. Please try again." ∧
    (handleContact env resend b (.fail msg)).logged.isSome = true := by
  cases hg : getResend env resend with
  | error m => simp [handleContact, h1, h2, h3, hg]
  | ok p => simp [handleContact, h1, h2, h3, hg]

/-- C6 (witness): the Jane Doe submission with a rejecting collaborator. -/
theorem C6_send_failure_witness :
    (handleContact envKeyOnly initialResendState janeBody (.fail "boom")).status = 500 ∧
    (handleContact envKeyOnly initialResendState janeBody (.fail "boom")).body =
      .jsonError "Failed to send email. Please try again." ∧
    (handleContact envKeyOnly initialResendState janeBody (.fail "boom")).logged.isSome = true :=
  C6_send_failure envKeyOnly initialResendState janeBody "boom"
    (by decide) (by decide) (by decide)

/-- C7: no email client exists at process start, and when `RESEND_API_KEY`
is unset a valid submission fails only at the send attempt: the thrown
configuration error is caught and mapped to the same 500 response as a
delivery failure, nothing is handed to the collaborator, and the client is
still unconstructed afterwards. -/
theorem C7_lazy_client (env : Env) (b : ContactBody) (send : SendResult)
    (hkey : jsTruthy env.resendApiKey = false)
    (h1 : jsTruthy b.name = true) (h2 : jsTruthy b.phone = true)
    (h3 : jsTruthy b.message = true) :
    initialResendState = none ∧
    handleContact env initialResendState b send =
      { status := 500, body := .jsonError "Failed to send email. Please try again.",
        sent := none,
        logged := some ("Resend error: " ++
          "RESEND_API_KEY is not set. Add it to your .env file."),
        resendAfter := none } := by
  refine ⟨rfl, ?_⟩
  simp [handleContact, h1, h2, h3, getResend, initialResendState, hkey]

/-- C7 (witness): the Jane Doe submission in an empty environment. -/
theorem C7_lazy_client_witness :
    initialResendState = none ∧
    handleContact envEmpty initialResendState janeBody .ok =
      { status := 500, body := .jsonError "Failed to send email. Please try again.",
        sent := none,
        logged := some ("Resend error: " ++
          "RESEND_API_KEY is not set. Add it to your .env file."),
        resendAfter := none } :=
  C7_lazy_client envEmpty janeBody .ok (by decide) (by decide) (by decide) (by decide)

/-- C8 (counterexample): an email field supplied as the empty string is
`supplied`, yet the outbound email has `replyTo` unset rather than the raw
(empty) email string the claim requires. -/
theorem C8_counterexample :
    Option.map OutboundEmail.replyTo
        (handleContact envKeyOnly initialResendState emptyEmailBody .ok).sent =
      some none ∧
    some (none : Option String) ≠ some (some "") := by
  decide

/-- C8 (amended): for every submission whose email is omitted or falsy
(empty), the email table cell is the em-dash placeholder and `replyTo` is
unset; when a non-empty email is supplied, `replyTo` is the raw submitted
email string. -/
theorem C8_replyTo (env : Env) (name phone message : String) (email : Option String) :
    (jsTruthy email = false →
      (buildEmail env name phone email message).replyTo = none ∧
      emailCell email = "—") ∧
    (∀ e, email = some e → e ≠ "" →
      (buildEmail env name phone email message).replyTo = some e) := by
  constructor
  · intro h
    exact ⟨by simp [buildEmail, h], by simp [emailCell, h]⟩
  · intro e he hne
    subst he
    simp [buildEmail, jsTruthy, hne]

/-- C8 (witness): the amended statement at an omitted email and at
`jane@example.com`. -/
theorem C8_replyTo_witness :
    ((buildEmail envEmpty "Jane" "555" none "hi").replyTo = none ∧
      emailCell (none : Option String) = "—") ∧
    (buildEmail envEmpty "Jane" "555" (some "jane@example.com") "hi").replyTo =
      some "jane@example.com" :=
  ⟨(C8_replyTo envEmpty "Jane" "555" "hi" none).1 (by decide),
    (C8_replyTo envEmpty "Jane" "555" "hi" (some "jane@example.com")).2
      "jane@example.com" rfl (by decide)⟩

/-- C9: an email field present but empty is treated exactly like an omitted
one — the handler result is identical, the email cell shows the em-dash,
and `replyTo` is unset: the code branches on truthiness, not presence. -/
theorem C9_empty_email (env : Env) (resend : Option Client)
    (n p m : Option String) (send : SendResult) :
    handleContact env resend ⟨n, p, some "", m⟩ send =
      handleContact env resend ⟨n, p, none, m⟩ send ∧
    emailCell (some "") = "—" ∧
    (buildEmail env (strOf n) (strOf p) (some "") (strOf m)).replyTo = none :=
  ⟨rfl, rfl, rfl⟩

/-- C10: the sanitiser is idempotent — its output contains no `<` or `>`,
so sanitising a second time changes nothing. -/
theorem C10_safe_idem :
    ∀ s : String, safe (safe s) = safe s ∧
      '<' ∉ (safe s).data ∧ '>' ∉ (safe s).data :=
  fun s =>
    ⟨safe_id_of_clean (safe s) (safe_no_lt s) (safe_no_gt s),
      safe_no_lt s, safe_no_gt s⟩

end NatesDoor
